import Mathlib

/-! polygon-edge: `rootchain/samuel` test doubles and `command/genesis` PolyBFT parameters

A shallow embedding of

* `rootchain/samuel/samuel_test.go`: the four delegate structs `mockEventTracker`,
  `mockSAMP`, `mockSigner`, `mockTransport`;
* `command/genesis/polybft_params.go`: `generatePolyBFTConfig`, `getGenesisValidators`,
  `deployContracts`, `generateExtraDataPolyBft`.

Conventions of the embedding.

* A Go slice is `Slice α = Option (List α)`; `none` is the `nil` slice.  `len`, `range` and
  `append` see a `nil` slice as an empty one.
* A Go `string` is its byte sequence (`List Byte`); `len` is the number of bytes.
* A Go `error` result is an `Option`: `none` is `nil`.
* A Go closure that may touch captured state is a function on an explicit world state `σ`.
* `uint64` values that are only passed around are natural numbers.
-/

set_option autoImplicit false

/-- One byte. -/
abbrev Byte := Fin 256

/-- A Go slice; `none` is the `nil` slice. -/
abbrev Slice (α : Type) := Option (List α)

namespace Slice

variable {α : Type}

/-- The elements of a slice, in order (a `nil` slice has none). -/
def toList : Slice α → List α
  | none => []
  | some l => l

/-- Go `len(s)`. -/
def len (s : Slice α) : Nat := (toList s).length

/-- Go `append(s, x)`. -/
def append (s : Slice α) (x : α) : Slice α := some (toList s ++ [x])

end Slice

/-- A Go string: an immutable sequence of bytes. -/
abbrev GoString := List Byte

/-- The bytes of an ASCII string literal of the source. -/
def ascii (s : String) : GoString := s.data.map (fun c => Fin.ofNat c.toNat)

namespace Samuel

/-- Modelled from the spec: the error taxonomy of section 7 (`AlreadyRunning`, `NotRunning`,
`Stale`, `Equivocation`, `UnknownSigner`, `InvalidSignature`, `PublishFailure`,
`TrackerStartFailure`); the Go source only has the builtin `error` interface, so any other
error value is `other`. -/
inductive Err where
  | AlreadyRunning
  | NotRunning
  | Stale
  | Equivocation
  | UnknownSigner
  | InvalidSignature
  | PublishFailure
  | TrackerStartFailure
  | other (msg : GoString)
  deriving DecidableEq, Repr

/-- A Go `error` value; `none` is `nil`. -/
abbrev GoError := Option Err

/-- Modelled from the spec: `rootchain.Event` is declared outside the given sources; section 3
gives it as `{Index: uint64, Payload: bytes}`. -/
structure Event where
  Index : Nat
  Payload : Slice Byte
  deriving DecidableEq, Repr

/-- Modelled from the spec: `rootchain.SAM` is declared outside the given sources; section 3
gives an attestation as `{Index, Data, Signature, SignerIndex}`. -/
structure SAM where
  Index : Nat
  Data : Slice Byte
  Signature : Slice Byte
  SignerIndex : Nat
  deriving DecidableEq, Repr

/-- Modelled from the spec: `proto.SAM` is declared outside the given sources; section 6 gives
the wire message as `{Index, Data, Signature, SignerIndex}`. -/
structure ProtoSAM where
  Index : Nat
  Data : Slice Byte
  Signature : Slice Byte
  SignerIndex : Nat
  deriving DecidableEq, Repr

/-- Modelled from the spec: `rootchain.VerifiedSAM` is declared outside the given sources; it
is a nilable value (the mocks return `nil`), here the list of the attestations that reached
quorum for one index, `none` being `nil`. -/
abbrev VerifiedSAM := Slice SAM

/-- A receive-only channel value `<-chan rootchain.Event`: `none` is the `nil` channel, `some c`
the channel with handle `c`. -/
abbrev EventChan := Option Nat

/-! ## Delegate types (`samuel_test.go` lines 8-10, 42-45, 84-85, 116-117) -/

section Delegates

variable (σ : Type)

/-- Go `type startDelegate func(uint64) error`. -/
abbrev startDelegate := Nat → σ → GoError × σ
/-- Go `type stopDelegate func() error`. -/
abbrev stopDelegate := σ → GoError × σ
/-- Go `type subscribeDelegate func() <-chan rootchain.Event`. -/
abbrev subscribeDelegate := σ → EventChan × σ

/-- Go `type addMessageDelegate func(rootchain.SAM) error`. -/
abbrev addMessageDelegate := SAM → σ → GoError × σ
/-- Go `type pruneDelegate func(uint64)`. -/
abbrev pruneDelegate := Nat → σ → σ
/-- Go `type peekDelegate func() rootchain.VerifiedSAM`. -/
abbrev peekDelegate := σ → VerifiedSAM × σ
/-- Go `type popDelegate func() rootchain.VerifiedSAM`. -/
abbrev popDelegate := σ → VerifiedSAM × σ

/-- Go `type signDelegate func([]byte) ([]byte, uint64, error)`. -/
abbrev signDelegate := Slice Byte → σ → (Slice Byte × Nat × GoError) × σ
/-- Go `type verifySignatureDelegate func([]byte, []byte, uint64) error`. -/
abbrev verifySignatureDelegate := Slice Byte → Slice Byte → Nat → σ → GoError × σ

/-- The callback handed to the transport, Go `func(sam *proto.SAM)`; the pointer may be `nil`. -/
abbrev samCallback := Option ProtoSAM → σ → σ
/-- Go `type publishDelegate func(*proto.SAM) error`. -/
abbrev publishDelegate := Option ProtoSAM → σ → GoError × σ
/-- Go `type subscribeTransportDelegate func(func(sam *proto.SAM)) error`. -/
abbrev subscribeTransportDelegate := samCallback σ → σ → GoError × σ

/-- Go `type mockEventTracker struct`; an unset function field is `none`. -/
structure mockEventTracker where
  startFn : Option (startDelegate σ)
  stopFn : Option (stopDelegate σ)
  subscribeFn : Option (subscribeDelegate σ)

/-- Go `type mockSAMP struct`. -/
structure mockSAMP where
  addMessageFn : Option (addMessageDelegate σ)
  pruneFn : Option (pruneDelegate σ)
  peekFn : Option (peekDelegate σ)
  popFn : Option (popDelegate σ)

/-- Go `type mockSigner struct`. -/
structure mockSigner where
  signFn : Option (signDelegate σ)
  verifySignatureFn : Option (verifySignatureDelegate σ)

/-- Go `type mockTransport struct`. -/
structure mockTransport where
  publishFn : Option (publishDelegate σ)
  subscribeFn : Option (subscribeTransportDelegate σ)

end Delegates

variable {σ : Type}

/-- Go `func (m *mockEventTracker) Start(startBlock uint64) error`. -/
def mockEventTracker.Start (m : mockEventTracker σ) (startBlock : Nat) (s : σ) : GoError × σ :=
  match m.startFn with
  | some f => f startBlock s
  | none => (none, s)

/-- Go `func (m *mockEventTracker) Stop() error`. -/
def mockEventTracker.Stop (m : mockEventTracker σ) (s : σ) : GoError × σ :=
  match m.stopFn with
  | some f => f s
  | none => (none, s)

/-- Go `func (m *mockEventTracker) Subscribe() <-chan rootchain.Event`. -/
def mockEventTracker.Subscribe (m : mockEventTracker σ) (s : σ) : EventChan × σ :=
  match m.subscribeFn with
  | some f => f s
  | none => (none, s)

/-- Go `func (m *mockSAMP) AddMessage(sam rootchain.SAM) error`. -/
def mockSAMP.AddMessage (m : mockSAMP σ) (sam : SAM) (s : σ) : GoError × σ :=
  match m.addMessageFn with
  | some f => f sam s
  | none => (none, s)

/-- Go `func (m *mockSAMP) Prune(index uint64)`. -/
def mockSAMP.Prune (m : mockSAMP σ) (index : Nat) (s : σ) : σ :=
  match m.pruneFn with
  | some f => f index s
  | none => s

/-- Go `func (m *mockSAMP) Peek() rootchain.VerifiedSAM`. -/
def mockSAMP.Peek (m : mockSAMP σ) (s : σ) : VerifiedSAM × σ :=
  match m.peekFn with
  | some f => f s
  | none => (none, s)

/-- Go `func (m *mockSAMP) Pop() rootchain.VerifiedSAM`. -/
def mockSAMP.Pop (m : mockSAMP σ) (s : σ) : VerifiedSAM × σ :=
  match m.popFn with
  | some f => f s
  | none => (none, s)

/-- Go `func (m *mockSigner) Sign(data []byte) ([]byte, uint64, error)`. -/
def mockSigner.Sign (m : mockSigner σ) (data : Slice Byte) (s : σ) :
    (Slice Byte × Nat × GoError) × σ :=
  match m.signFn with
  | some f => f data s
  | none => ((none, 0, none), s)

/-- Go `func (m *mockSigner) VerifySignature(rawData, signature []byte, signedBlock uint64) error`. -/
def mockSigner.VerifySignature (m : mockSigner σ) (rawData : Slice Byte)
    (signature : Slice Byte) (signedBlock : Nat) (s : σ) : GoError × σ :=
  match m.verifySignatureFn with
  | some f => f rawData signature signedBlock s
  | none => (none, s)

/-- Go `func (m *mockTransport) Publish(sam *proto.SAM) error`. -/
def mockTransport.Publish (m : mockTransport σ) (sam : Option ProtoSAM) (s : σ) : GoError × σ :=
  match m.publishFn with
  | some f => f sam s
  | none => (none, s)

/-- Go `func (m *mockTransport) Subscribe(fn func(sam *proto.SAM)) error`. -/
def mockTransport.Subscribe (m : mockTransport σ) (fn : samCallback σ) (s : σ) : GoError × σ :=
  match m.subscribeFn with
  | some f => f fn s
  | none => (none, s)

/-! ### Concrete doubles used as test inputs -/

/-- The tracker literal `&mockEventTracker{}`: no field set. -/
def zeroTracker : mockEventTracker Unit := ⟨none, none, none⟩

/-- The pool literal `&mockSAMP{}`: no field set. -/
def zeroSAMP : mockSAMP Unit := ⟨none, none, none, none⟩

/-- A tracker double whose `stopFn` reports a teardown failure. -/
def failingStopTracker : mockEventTracker Unit :=
  ⟨none, some (fun s => (some (Err.other (ascii "teardown")), s)), none⟩

/-- A signer double with `signFn` unset and a `verifySignatureFn` that rejects everything. -/
def rejectingSigner : mockSigner Unit :=
  ⟨none, some (fun _ _ _ s => (some Err.InvalidSignature, s))⟩

/-- A pool double whose delegates keep a prune watermark in the world state: `pruneFn` raises
it, `addMessageFn` rejects indices at or below it. -/
def watermarkSAMP : mockSAMP Nat :=
  ⟨some (fun sam w => (if sam.Index ≤ w then some Err.Stale else none, w)),
   some (fun k w => max w k), none, none⟩

/-- A tracker double whose delegates keep a running flag in the world state. -/
def lifecycleTracker : mockEventTracker Bool :=
  ⟨some (fun _ running => (if running then some Err.AlreadyRunning else none, true)),
   some (fun _ => (none, false)), none⟩

/-- A signer double that signs with the identity and checks for it. -/
def echoSigner : mockSigner Unit :=
  ⟨some (fun data s => ((data, 7, none), s)),
   some (fun data sig idx s =>
     (if sig = data ∧ idx = 7 then none else some Err.InvalidSignature, s))⟩

end Samuel

namespace Genesis

/-! ## Go library functions used by `polybft_params.go` -/

/-- Go `strings.Split(s, sep)` for a one-byte separator such as `":"`: the pieces of `s`
between the occurrences of `sep`; a string without `sep` (the empty one included) gives the
one-element result `[s]`. -/
def stringsSplit (sep : Byte) : GoString → List GoString
  | [] => [[]]
  | c :: cs =>
    if c = sep then [] :: stringsSplit sep cs
    else
      match stringsSplit sep cs with
      | [] => [[c]]
      | piece :: pieces => (c :: piece) :: pieces

/-- The separator byte of `":"`. -/
def colon : Byte := 58

/-- One digit of the table `"0123456789abcdef"` of `encoding/hex`. -/
def hexDigit (n : Nat) : Byte := if n < 10 then Fin.ofNat (48 + n) else Fin.ofNat (87 + n)

/-- Go `hex.EncodeToString(b)`: two lower-case hexadecimal digits per byte. -/
def hexEncodeToString : List Byte → GoString
  | [] => []
  | b :: bs => hexDigit (b.val / 16) :: hexDigit (b.val % 16) :: hexEncodeToString bs

/-- The verb `%d` of `fmt.Sprintf` on a non-negative `int`: its decimal digits. -/
def fmtD (n : Nat) : GoString := (Nat.toDigits 10 n).map (fun c => Fin.ofNat c.toNat)

/-! ## Constants (`polybft_params.go` lines 22-43) -/

/-- Go `defaultEpochSize = uint64(10)`. -/
def defaultEpochSize : Nat := 10
/-- Go `defaultSprintSize = uint64(5)`. -/
def defaultSprintSize : Nat := 5
/-- Go `defaultValidatorSetSize = 100`. -/
def defaultValidatorSetSize : Int := 100
/-- Go `bootnodePortStart = 30301`. -/
def bootnodePortStart : Nat := 30301
/-- Go `contractsRootFolder`. -/
def contractsRootFolder : GoString :=
  ascii "consensus/polybft/polybftcontracts/artifacts/contracts"

/-! ## Types declared outside the file -/

/-- The types that `polybft_params.go` uses and other packages declare; they are parameters of
the embedding. -/
structure ExtTypes where
  /-- `types.Address` and `ethgo.Address`, both `[20]byte`; the conversion between them keeps
  the bytes. -/
  Address : Type
  /-- `*bls.PrivateKey`. -/
  BlsPrivateKey : Type
  /-- `*bls.PublicKey`. -/
  BlsPublicKey : Type
  /-- `*wallet.Key`. -/
  EcdsaKey : Type
  /-- `*polybftcontracts.Artifact`. -/
  Artifact : Type
  /-- `interface{}`. -/
  Any : Type
  /-- `map[types.Address]*chain.GenesisAccount`. -/
  Alloc : Type
  /-- `*chain.Forks`. -/
  Forks : Type
  /-- `types.Hash`. -/
  Hash : Type
  /-- `bitmap.Bitmap`. -/
  Bitmap : Type
  /-- Go `error` values other than `nil`. -/
  Error : Type

section Types

variable (T : ExtTypes)

/-- Go `wallet.Account`: the two keys of a validator; the file reads `Account.Bls` and
`Account.Ecdsa`. -/
structure Account where
  Bls : T.BlsPrivateKey
  Ecdsa : T.EcdsaKey

/-- Go `GenesisTarget` (declared in the same package, outside the file); the file reads
`Account` and `NodeID`. -/
structure GenesisTarget where
  Account : Account T
  NodeID : GoString

/-- Go `polybft.Validator`. -/
structure Validator where
  Address : T.Address
  BlsKey : GoString

/-- Go `polybft.ValidatorAccount`. -/
structure ValidatorAccount where
  Address : T.Address
  BlsKey : T.BlsPublicKey

/-- Go `polybft.ValidatorSetDelta`; `Added` is a `polybft.AccountSet`, a slice of pointers,
`none` being a `nil` pointer. -/
structure ValidatorSetDelta where
  Added : Slice (Option (ValidatorAccount T))
  Removed : T.Bitmap

/-- Go `polybft.Extra`, of which the file sets `Validators` and leaves the rest zero. -/
structure Extra where
  Validators : Option (ValidatorSetDelta T)

/-- Go `polybft.SmartContract`. -/
structure SmartContract where
  Address : T.Address
  Code : Slice Byte
  Name : GoString

/-- Go `polybft.PolyBFTConfig`, the fields the file sets. -/
structure PolyBFTConfig where
  InitialValidatorSet : Slice (Validator T)
  BlockTime : Int
  EpochSize : Nat
  SprintSize : Nat
  ValidatorSetSize : Int
  ValidatorSetAddr : T.Address
  SidechainBridgeAddr : T.Address
  SmartContracts : Slice (SmartContract T)

/-- Go `chain.Genesis`, the fields the file sets. -/
structure GenesisBlock where
  GasLimit : Nat
  Difficulty : Nat
  Alloc : T.Alloc
  ExtraData : Slice Byte
  GasUsed : Nat
  Mixhash : T.Hash

/-- Go `chain.Params`; `Engine` is a `map[string]interface{}` given as its entries. -/
structure Params where
  ChainID : Int
  Forks : T.Forks
  Engine : List (GoString × PolyBFTConfig T)

/-- Go `chain.Chain`. -/
structure Chain where
  Name : GoString
  Genesis : GenesisBlock T
  Params : Params T
  Bootnodes : Slice GoString

/-- Go `genesisParams` (declared in the same package, outside the file), the fields the file
reads. -/
structure genesisParams where
  genesisPath : GoString
  polyBftValidatorPrefixPath : GoString
  name : GoString
  blockGasLimit : Nat
  chainID : Nat
  blockTime : Int
  epochSize : Nat
  sprintSize : Nat
  validatorSetSize : Int
  bootnodes : Slice GoString
  premine : Slice GoString
  premineValidators : GoString
  validators : Slice GoString

/-- The functions and constants that `polybft_params.go` uses and other files declare; one
value of `Ext` fixes the file system and the key material of one run. -/
structure Ext where
  /-- `ReadValidatorsByRegexp(dir, prefix)`. -/
  ReadValidatorsByRegexp : GoString → GoString → Except T.Error (Slice (GenesisTarget T))
  /-- `path.Dir`. -/
  pathDir : GoString → GoString
  /-- `polybftcontracts.ReadArtifact(rootFolder, chain, name)`. -/
  ReadArtifact : GoString → GoString → GoString → Except T.Error T.Artifact
  /-- `artifact.DeployInput(input)`. -/
  DeployInput : T.Artifact → Slice T.Any → Except T.Error (Slice Byte)
  /-- `fillPremineMap(alloc, premine)`: fills the map in place; the filled map on success. -/
  fillPremineMap : T.Alloc → Slice GoString → Except T.Error T.Alloc
  /-- The empty map literal `map[types.Address]*chain.GenesisAccount{}`. -/
  emptyAlloc : T.Alloc
  /-- `(*bls.PrivateKey).PublicKey()`. -/
  PublicKey : T.BlsPrivateKey → T.BlsPublicKey
  /-- `(*bls.PublicKey).Marshal()`. -/
  Marshal : T.BlsPublicKey → Slice Byte
  /-- `(*wallet.Key).Address()`. -/
  EcdsaAddress : T.EcdsaKey → T.Address
  /-- `ethgo.Address.String()`. -/
  AddressString : T.Address → GoString
  /-- `types.StringToAddress`. -/
  StringToAddress : GoString → T.Address
  /-- `extra.MarshalRLPTo(dst)`. -/
  MarshalRLPTo : Extra T → Slice Byte → Slice Byte
  /-- The empty bitmap literal `bitmap.Bitmap{}`. -/
  emptyBitmap : T.Bitmap
  /-- `signer.IstanbulExtraVanity`. -/
  IstanbulExtraVanity : Nat
  /-- `contracts.ValidatorSetContract`. -/
  ValidatorSetContract : T.Address
  /-- `contracts.StateReceiverContract`. -/
  StateReceiverContract : T.Address
  /-- `contracts.NativeTokenContract`. -/
  NativeTokenContract : T.Address
  /-- `command.DefaultGenesisGasUsed`. -/
  DefaultGenesisGasUsed : Nat
  /-- `polybft.PolyMixDigest`. -/
  PolyMixDigest : T.Hash
  /-- `chain.AllForksEnabled`. -/
  AllForksEnabled : T.Forks
  /-- `string(server.PolyBFTConsensus)`. -/
  PolyBFTConsensus : GoString

end Types

variable {T : ExtTypes}

/-- Go conversion `int(x)` of a `uint64` on a 64-bit platform. -/
def intOfUint64 (x : Nat) : Int :=
  if x % 2 ^ 64 < 2 ^ 63 then ((x % 2 ^ 64 : Nat) : Int) else ((x % 2 ^ 64 : Nat) : Int) - 2 ^ 64

/-! ## `getGenesisValidators` (lines 114-139) -/

/-- The loop of lines 116-126 over `p.validators`, `result` being the slice built so far. -/
def getGenesisValidators.flagLoop (X : Ext T) :
    List GoString → Slice (Validator T) → Slice (Validator T)
  | [], result => result
  | validator :: rest, result =>
    let parts := stringsSplit colon validator
    if parts.length ≠ 2 ∨ (parts.getD 0 []).length ≠ 32 ∨ (parts.getD 1 []).length < 2 then
      getGenesisValidators.flagLoop X rest result
    else
      getGenesisValidators.flagLoop X rest
        (Slice.append result
          { Address := X.StringToAddress (parts.getD 0 []), BlsKey := parts.getD 1 [] })

/-- The loop of lines 128-135 over the validators read from disk. -/
def getGenesisValidators.diskLoop (X : Ext T) :
    List (GenesisTarget T) → Slice (Validator T) → Slice (Validator T)
  | [], result => result
  | validator :: rest, result =>
    let pubKeyMarshalled := X.Marshal (X.PublicKey validator.Account.Bls)
    getGenesisValidators.diskLoop X rest
      (Slice.append result
        { Address := X.EcdsaAddress validator.Account.Ecdsa,
          BlsKey := hexEncodeToString (Slice.toList pubKeyMarshalled) })

/-- Go `func (p *genesisParams) getGenesisValidators(validators []GenesisTarget)`; the named
result starts as the `nil` slice. -/
def getGenesisValidators (X : Ext T) (p : genesisParams) (validators : Slice (GenesisTarget T)) :
    Slice (Validator T) :=
  if Slice.len p.validators > 0 then
    getGenesisValidators.flagLoop X (Slice.toList p.validators) none
  else
    getGenesisValidators.diskLoop X (Slice.toList validators) none

/-! ## `deployContracts` (lines 150-200) -/

/-- One entry of the table `predefinedContracts`. -/
structure PredefinedContract (T : ExtTypes) where
  name : GoString
  input : Slice T.Any
  expected : T.Address
  chain : GoString

/-- The table `predefinedContracts` of lines 151-175; `input` is left unset. -/
def predefinedContracts (X : Ext T) : List (PredefinedContract T) :=
  [ { name := ascii "Validator", input := none,
      expected := X.ValidatorSetContract, chain := ascii "child" },
    { name := ascii "StateReceiver", input := none,
      expected := X.StateReceiverContract, chain := ascii "child" },
    { name := ascii "NativeTokenContract", input := none,
      expected := X.NativeTokenContract, chain := ascii "child" } ]

/-- The loop of lines 179-197. -/
def deployContracts.loop (X : Ext T) :
    List (PredefinedContract T) → Slice (SmartContract T) →
      Except T.Error (Slice (SmartContract T))
  | [], result => .ok result
  | contract :: rest, result =>
    match X.ReadArtifact contractsRootFolder contract.chain contract.name with
    | .error err => .error err
    | .ok artifact =>
      match X.DeployInput artifact contract.input with
      | .error err => .error err
      | .ok input =>
        deployContracts.loop X rest
          (Slice.append result
            { Address := contract.expected,
              Code := input,
              Name := contract.chain ++ ascii "/" ++ contract.name })

/-- Go `func deployContracts() ([]polybft.SmartContract, error)`. -/
def deployContracts (X : Ext T) : Except T.Error (Slice (SmartContract T)) :=
  deployContracts.loop X (predefinedContracts X) (some [])

/-! ## `generateExtraDataPolyBft` (lines 202-218) -/

/-- The loop of lines 208-213: `delta.Added[i] = ...` for the `i`-th validator. -/
def generateExtraDataPolyBft.loop (X : Ext T) :
    Nat → List (GenesisTarget T) → List (Option (ValidatorAccount T)) →
      List (Option (ValidatorAccount T))
  | _, [], added => added
  | i, validator :: rest, added =>
    generateExtraDataPolyBft.loop X (i + 1) rest
      (added.set i (some { Address := X.EcdsaAddress validator.Account.Ecdsa,
                           BlsKey := X.PublicKey validator.Account.Bls }))

/-- The value of `delta` when line 215 is reached. -/
def generateExtraDataPolyBft.delta (X : Ext T) (validators : Slice (GenesisTarget T)) :
    ValidatorSetDelta T :=
  { Added := some (generateExtraDataPolyBft.loop X 0 (Slice.toList validators)
      (List.replicate (Slice.len validators) none)),
    Removed := X.emptyBitmap }

/-- Go `func generateExtraDataPolyBft(validators []GenesisTarget) []byte`. -/
def generateExtraDataPolyBft (X : Ext T) (validators : Slice (GenesisTarget T)) : Slice Byte :=
  let extra : Extra T := { Validators := some (generateExtraDataPolyBft.delta X validators) }
  some (List.replicate X.IstanbulExtraVanity (0 : Byte) ++ Slice.toList (X.MarshalRLPTo extra none))

/-! ## `generatePolyBFTConfig` (lines 45-112) -/

/-- The string of line 90, `fmt.Sprintf("/ip4/%s/tcp/%d/p2p/%s", "127.0.0.1", port, nodeID)`. -/
def sprintfBootnode (port : Nat) (nodeID : GoString) : GoString :=
  ascii "/ip4/" ++ ascii "127.0.0.1" ++ ascii "/tcp/" ++ fmtD port ++ ascii "/p2p/" ++ nodeID

/-- The loop of lines 89-92.  The index `i` is below the length of a slice held in memory, so
`bootnodePortStart+i` stays far below the largest `int`. -/
def generatePolyBFTConfig.bootnodeLoop :
    Nat → List (GenesisTarget T) → Slice GoString → Slice GoString
  | _, [], bootnodes => bootnodes
  | i, validator :: rest, bootnodes =>
    let bnode := sprintfBootnode (bootnodePortStart + i) validator.NodeID
    generatePolyBFTConfig.bootnodeLoop (i + 1) rest (Slice.append bootnodes bnode)

/-- The string of lines 101-102, `fmt.Sprintf("%s:%s", address, amount)`. -/
def sprintfPremine (address amount : GoString) : GoString :=
  address ++ ascii ":" ++ amount

/-- The loop of lines 100-103: `premine[i] = ...` for the `i`-th validator. -/
def generatePolyBFTConfig.premineLoop (X : Ext T) (premineValidators : GoString) :
    Nat → List (GenesisTarget T) → List GoString → List GoString
  | _, [], premine => premine
  | i, vi :: rest, premine =>
    generatePolyBFTConfig.premineLoop X premineValidators (i + 1) rest
      (premine.set i
        (sprintfPremine (X.AddressString (X.EcdsaAddress vi.Account.Ecdsa)) premineValidators))

/-- The value of `premine` when line 107 is reached (lines 95-104). -/
def generatePolyBFTConfig.premine (X : Ext T) (p : genesisParams)
    (validatorsInfo : Slice (GenesisTarget T)) : Slice GoString :=
  if Slice.len p.premine > 0 then
    p.premine
  else if p.premineValidators ≠ [] then
    some (generatePolyBFTConfig.premineLoop X p.premineValidators 0 (Slice.toList validatorsInfo)
      (List.replicate (Slice.len validatorsInfo) []))
  else
    none

/-- The value of `chainConfig.Bootnodes` when line 95 is reached (lines 84-93). -/
def generatePolyBFTConfig.bootnodes (p : genesisParams)
    (validatorsInfo : Slice (GenesisTarget T)) : Slice GoString :=
  if Slice.len p.bootnodes = 0 then
    generatePolyBFTConfig.bootnodeLoop 0 (Slice.toList validatorsInfo) p.bootnodes
  else
    p.bootnodes

/-- Go `func (p *genesisParams) generatePolyBFTConfig() (*chain.Chain, error)`; an error result
comes with no chain config. -/
def generatePolyBFTConfig (X : Ext T) (p : genesisParams) : Except T.Error (Chain T) :=
  match X.ReadValidatorsByRegexp (X.pathDir p.genesisPath) p.polyBftValidatorPrefixPath with
  | .error err => .error err
  | .ok validatorsInfo =>
    match deployContracts X with
    | .error err => .error err
    | .ok smartContracts =>
      let polyBftConfig : PolyBFTConfig T :=
        { InitialValidatorSet := getGenesisValidators X p validatorsInfo,
          BlockTime := p.blockTime,
          EpochSize := p.epochSize,
          SprintSize := p.sprintSize,
          ValidatorSetSize := p.validatorSetSize,
          ValidatorSetAddr := X.ValidatorSetContract,
          SidechainBridgeAddr := X.StateReceiverContract,
          SmartContracts := smartContracts }
      let chainConfig : Chain T :=
        { Name := p.name,
          Genesis :=
            { GasLimit := p.blockGasLimit,
              Difficulty := 0,
              Alloc := X.emptyAlloc,
              ExtraData := generateExtraDataPolyBft X validatorsInfo,
              GasUsed := X.DefaultGenesisGasUsed,
              Mixhash := X.PolyMixDigest },
          Params :=
            { ChainID := intOfUint64 p.chainID,
              Forks := X.AllForksEnabled,
              Engine := [(X.PolyBFTConsensus, polyBftConfig)] },
          Bootnodes := generatePolyBFTConfig.bootnodes p validatorsInfo }
      match X.fillPremineMap chainConfig.Genesis.Alloc
          (generatePolyBFTConfig.premine X p validatorsInfo) with
      | .error err => .error err
      | .ok alloc => .ok { chainConfig with Genesis := { chainConfig.Genesis with Alloc := alloc } }

/-! ## The claims' own wording, to compare the code with -/

/-- The validator that one entry of `p.validators` stands for, in the words of the
specification: the entry splits on `":"` into exactly two parts, the first of length exactly 32
and the second of length at least 2; then `Address = StringToAddress(first part)` and
`BlsKey = second part`.  Every other entry stands for no validator. -/
def validatorOfFlagEntry (X : Ext T) (entry : GoString) : Option (Validator T) :=
  match stringsSplit colon entry with
  | [address, blsKey] =>
    if address.length = 32 ∧ 2 ≤ blsKey.length then
      some { Address := X.StringToAddress address, BlsKey := blsKey }
    else none
  | _ => none

/-- A hexadecimal digit, `0-9`, `a-f` or `A-F`. -/
def isHexDigit (c : Byte) : Prop :=
  (48 ≤ c.val ∧ c.val ≤ 57) ∨ (97 ≤ c.val ∧ c.val ≤ 102) ∨ (65 ≤ c.val ∧ c.val ≤ 70)

/-- A 40-character hex address, or its 42-character form with the leading `0x`. -/
def isHexAddress (a : GoString) : Prop :=
  ∃ digits : GoString, digits.length = 40 ∧ (∀ c ∈ digits, isHexDigit c) ∧
    (a = digits ∨ a = ascii "0x" ++ digits)

/-- The bootnode address of the `i`-th validator, in the words of the specification:
`/ip4/127.0.0.1/tcp/<30301+i>/p2p/<NodeID>`. -/
def defaultBootnode (i : Nat) (nodeID : GoString) : GoString :=
  ascii "/ip4/127.0.0.1/tcp/" ++ fmtD (30301 + i) ++ ascii "/p2p/" ++ nodeID

/-! ## A concrete run, for evaluating the definitions -/

/-- Small carriers for the external types: keys and addresses are numbers, the allocation map
is the list of the premine entries it was filled from. -/
@[reducible] def demoTypes : ExtTypes :=
  { Address := Nat, BlsPrivateKey := Nat, BlsPublicKey := Nat, EcdsaKey := Nat,
    Artifact := Unit, Any := Unit, Alloc := List GoString, Forks := Unit, Hash := Unit,
    Bitmap := Unit, Error := Nat }

/-- An environment whose secrets directory holds the validators `disk`; `fillPremineMap`
rejects an empty premine entry with error `1`. -/
def demoExt (disk : Slice (GenesisTarget demoTypes)) : Ext demoTypes :=
  { ReadValidatorsByRegexp := fun _ _ => .ok disk,
    pathDir := fun path => path,
    ReadArtifact := fun _ _ _ => .ok (),
    DeployInput := fun _ _ => .ok (some []),
    fillPremineMap := fun (alloc : List GoString) premine =>
      if [] ∈ Slice.toList premine then .error (1 : Nat) else .ok (alloc ++ Slice.toList premine),
    emptyAlloc := ([] : List GoString),
    PublicKey := fun (k : Nat) => k + 1,
    Marshal := fun (k : Nat) => some [Fin.ofNat k],
    EcdsaAddress := fun (k : Nat) => k,
    AddressString := fun (a : Nat) => fmtD a,
    StringToAddress := fun s => s.length,
    MarshalRLPTo := fun _ dst => dst,
    emptyBitmap := (),
    IstanbulExtraVanity := 32,
    ValidatorSetContract := (257 : Nat),
    StateReceiverContract := (4097 : Nat),
    NativeTokenContract := (4112 : Nat),
    DefaultGenesisGasUsed := 458752,
    PolyMixDigest := (),
    AllForksEnabled := (),
    PolyBFTConsensus := ascii "polybft" }

/-- Two validators on disk, with node ids `a` and `b`. -/
def demoDisk : Slice (GenesisTarget demoTypes) :=
  some [ { Account := { Bls := (10 : Nat), Ecdsa := (20 : Nat) }, NodeID := ascii "a" },
         { Account := { Bls := (11 : Nat), Ecdsa := (21 : Nat) }, NodeID := ascii "b" } ]

/-- The parameters of a run with no flag set. -/
def demoParams : genesisParams :=
  { genesisPath := ascii "./genesis.json", polyBftValidatorPrefixPath := ascii "test-chain-",
    name := ascii "polygon-edge", blockGasLimit := 5242880, chainID := 100,
    blockTime := 2000000000, epochSize := defaultEpochSize, sprintSize := defaultSprintSize,
    validatorSetSize := defaultValidatorSetSize, bootnodes := none, premine := none,
    premineValidators := [], validators := none }

/-- A 32-byte address part of `a`s, a colon and the key `bb`. -/
def demoValidatorEntry : GoString := List.replicate 32 97 ++ ascii ":bb"

/-- A 40-digit hex address, a colon and the key `bb`. -/
def demoHexEntry : GoString := List.replicate 40 97 ++ ascii ":bb"

/-- The run of `demoParams` with the flag `--polybft-validators` given once, well formed. -/
def demoFlagParams : genesisParams :=
  { demoParams with validators := some [demoValidatorEntry] }

/-- The run of `demoParams` with three `--polybft-validators` entries: a well formed one, one
with a 40-digit hex address, one without a colon. -/
def demoMixedFlagParams : genesisParams :=
  { demoParams with validators := some [demoValidatorEntry, demoHexEntry, ascii "x"] }

/-- The run of `demoParams` with `--premine-validators 1000`. -/
def demoPremineParams : genesisParams :=
  { demoParams with premineValidators := ascii "1000" }

end Genesis

/-! # Theorems: the test doubles of `rootchain/samuel` -/

namespace Samuel

variable {σ : Type}

/-- C1: every method of `mockEventTracker`, `mockSAMP`, `mockSigner` and `mockTransport`
returns, for every argument, the result of its function field on the same arguments when the
field is set, and the zero result in an untouched world when it is unset: `nil` error for
`Start`, `Stop`, `AddMessage`, `VerifySignature`, `Publish` and the transport `Subscribe`, `nil`
channel for the tracker `Subscribe`, `nil` for `Peek` and `Pop`, `(nil, 0, nil)` for `Sign`, no
effect for `Prune`. -/
theorem mock_methods_delegate (t : mockEventTracker σ) (q : mockSAMP σ) (g : mockSigner σ)
    (r : mockTransport σ) (s : σ) :
    ((∀ f startBlock, t.startFn = some f → t.Start startBlock s = f startBlock s) ∧
      (∀ startBlock, t.startFn = none → t.Start startBlock s = (none, s))) ∧
    ((∀ f, t.stopFn = some f → t.Stop s = f s) ∧
      (t.stopFn = none → t.Stop s = (none, s))) ∧
    ((∀ f, t.subscribeFn = some f → t.Subscribe s = f s) ∧
      (t.subscribeFn = none → t.Subscribe s = (none, s))) ∧
    ((∀ f sam, q.addMessageFn = some f → q.AddMessage sam s = f sam s) ∧
      (∀ sam, q.addMessageFn = none → q.AddMessage sam s = (none, s))) ∧
    ((∀ f index, q.pruneFn = some f → q.Prune index s = f index s) ∧
      (∀ index, q.pruneFn = none → q.Prune index s = s)) ∧
    ((∀ f, q.peekFn = some f → q.Peek s = f s) ∧
      (q.peekFn = none → q.Peek s = (none, s))) ∧
    ((∀ f, q.popFn = some f → q.Pop s = f s) ∧
      (q.popFn = none → q.Pop s = (none, s))) ∧
    ((∀ f data, g.signFn = some f → g.Sign data s = f data s) ∧
      (∀ data, g.signFn = none → g.Sign data s = ((none, 0, none), s))) ∧
    ((∀ f rawData signature signedBlock, g.verifySignatureFn = some f →
        g.VerifySignature rawData signature signedBlock s = f rawData signature signedBlock s) ∧
      (∀ rawData signature signedBlock, g.verifySignatureFn = none →
        g.VerifySignature rawData signature signedBlock s = (none, s))) ∧
    ((∀ f sam, r.publishFn = some f → r.Publish sam s = f sam s) ∧
      (∀ sam, r.publishFn = none → r.Publish sam s = (none, s))) ∧
    ((∀ f fn, r.subscribeFn = some f → r.Subscribe fn s = f fn s) ∧
      (∀ fn, r.subscribeFn = none → r.Subscribe fn s = (none, s))) := by
  refine ⟨⟨?_, ?_⟩, ⟨?_, ?_⟩, ⟨?_, ?_⟩, ⟨?_, ?_⟩, ⟨?_, ?_⟩, ⟨?_, ?_⟩, ⟨?_, ?_⟩, ⟨?_, ?_⟩,
    ⟨?_, ?_⟩, ⟨?_, ?_⟩, ⟨?_, ?_⟩⟩
  · intro f startBlock h; simp [mockEventTracker.Start, h]
  · intro startBlock h; simp [mockEventTracker.Start, h]
  · intro f h; simp [mockEventTracker.Stop, h]
  · intro h; simp [mockEventTracker.Stop, h]
  · intro f h; simp [mockEventTracker.Subscribe, h]
  · intro h; simp [mockEventTracker.Subscribe, h]
  · intro f sam h; simp [mockSAMP.AddMessage, h]
  · intro sam h; simp [mockSAMP.AddMessage, h]
  · intro f index h; simp [mockSAMP.Prune, h]
  · intro index h; simp [mockSAMP.Prune, h]
  · intro f h; simp [mockSAMP.Peek, h]
  · intro h; simp [mockSAMP.Peek, h]
  · intro f h; simp [mockSAMP.Pop, h]
  · intro h; simp [mockSAMP.Pop, h]
  · intro f data h; simp [mockSigner.Sign, h]
  · intro data h; simp [mockSigner.Sign, h]
  · intro f rawData signature signedBlock h; simp [mockSigner.VerifySignature, h]
  · intro rawData signature signedBlock h; simp [mockSigner.VerifySignature, h]
  · intro f sam h; simp [mockTransport.Publish, h]
  · intro sam h; simp [mockTransport.Publish, h]
  · intro f fn h; simp [mockTransport.Subscribe, h]
  · intro fn h; simp [mockTransport.Subscribe, h]

/-- C1 at concrete doubles: the echo signer signs through its `signFn`, and the pool with no
field set answers `Pop` with `nil`. -/
theorem mock_methods_delegate_witness :
    echoSigner.Sign (some [1, 2]) () = ((some [1, 2], 7, none), ()) ∧
      zeroSAMP.Pop () = (none, ()) :=
  ⟨(mock_methods_delegate zeroTracker zeroSAMP echoSigner ⟨none, none⟩ ()).2.2.2.2.2.2.2.1.1
      (fun data s => ((data, 7, none), s)) (some [1, 2]) rfl,
   (mock_methods_delegate zeroTracker zeroSAMP echoSigner ⟨none, none⟩ ()).2.2.2.2.2.2.1.2 rfl⟩

/-- C2 as stated fails: on the pool `&mockSAMP{}` the call `Prune(5)` followed by `AddMessage`
of an attestation with index `3 <= 5` returns `nil`, not a `Stale` error. -/
theorem prune_then_addMessage_not_stale :
    (3 : Nat) ≤ 5 ∧
      (zeroSAMP.AddMessage ⟨3, none, none, 0⟩ (zeroSAMP.Prune 5 ())).1 = none ∧
      (zeroSAMP.AddMessage ⟨3, none, none, 0⟩ (zeroSAMP.Prune 5 ())).1 ≠ some Err.Stale := by
  decide

/-- C2, amended: on `mockSAMP`, `Prune(k)` followed by `AddMessage(sam)` returns `nil` when
`addMessageFn` is unset, and otherwise exactly what `addMessageFn(sam)` returns in the world
that `pruneFn(k)` left (the untouched world when `pruneFn` is unset); so it fails `Stale` for
`sam.Index <= k` whenever the injected delegates keep the watermark discipline. -/
theorem prune_then_addMessage_delegates (m : mockSAMP σ) (k : Nat) (sam : SAM) (s : σ) :
    (m.addMessageFn = none → (m.AddMessage sam (m.Prune k s)).1 = none) ∧
    (∀ f, m.addMessageFn = some f → m.AddMessage sam (m.Prune k s) = f sam (m.Prune k s)) ∧
    (m.pruneFn = none → m.Prune k s = s) ∧
    (∀ f g, m.addMessageFn = some f → m.pruneFn = some g →
      (∀ s0 a, a.Index ≤ k → (f a (g k s0)).1 = some Err.Stale) →
      sam.Index ≤ k → (m.AddMessage sam (m.Prune k s)).1 = some Err.Stale) := by
  refine ⟨?_, ?_, ?_, ?_⟩
  · intro h; simp [mockSAMP.AddMessage, h]
  · intro f h; simp [mockSAMP.AddMessage, h]
  · intro h; simp [mockSAMP.Prune, h]
  · intro f g hf hg hw hle
    simp only [mockSAMP.AddMessage, mockSAMP.Prune, hf, hg]
    exact hw s sam hle

/-- C2 amended, at the watermark double: after `Prune(5)` from watermark `2` an attestation
with index `3` is rejected as `Stale`. -/
theorem prune_then_addMessage_delegates_witness :
    (watermarkSAMP.AddMessage ⟨3, none, none, 0⟩ (watermarkSAMP.Prune 5 2)).1 = some Err.Stale :=
  (prune_then_addMessage_delegates watermarkSAMP 5 ⟨3, none, none, 0⟩ 2).2.2.2
    _ _ rfl rfl
    (fun s0 a h => by
      have h2 : a.Index ≤ max s0 5 := le_trans h (le_max_right s0 5)
      simp [h2])
    (by decide)

/-- C3 as stated fails: the signer double with `signFn` unset and a rejecting
`verifySignatureFn` signs `[1]` without error, as `(nil, 0)`, and then rejects that very
signature. -/
theorem sign_verify_roundtrip_fails :
    (rejectingSigner.Sign (some [1]) ()).1 = (none, 0, none) ∧
      (rejectingSigner.VerifySignature (some [1]) (rejectingSigner.Sign (some [1]) ()).1.1
        (rejectingSigner.Sign (some [1]) ()).1.2.1 (rejectingSigner.Sign (some [1]) ()).2).1
        = some Err.InvalidSignature := by
  decide

/-- C3, amended: on a `mockSigner` whose `verifySignatureFn` is unset, `VerifySignature`
returns no error on what `Sign(data)` returned (as on any other arguments); when
`verifySignatureFn` is set the round trip returns what that delegate returns on
`(data, signature, signerIndex)`. -/
theorem sign_verify_roundtrip_of_unset (m : mockSigner σ) (data : Slice Byte) (s : σ) :
    (m.verifySignatureFn = none →
      (m.VerifySignature data (m.Sign data s).1.1 (m.Sign data s).1.2.1 (m.Sign data s).2).1
        = none) ∧
    (∀ f, m.verifySignatureFn = some f →
      m.VerifySignature data (m.Sign data s).1.1 (m.Sign data s).1.2.1 (m.Sign data s).2
        = f data (m.Sign data s).1.1 (m.Sign data s).1.2.1 (m.Sign data s).2) := by
  refine ⟨?_, ?_⟩
  · intro h; simp [mockSigner.VerifySignature, h]
  · intro f h; simp [mockSigner.VerifySignature, h]

/-- C3 amended, at a signer double with only `signFn` set: the signature it produced is
accepted. -/
theorem sign_verify_roundtrip_of_unset_witness :
    ((⟨echoSigner.signFn, none⟩ : mockSigner Unit).VerifySignature (some [1])
      ((⟨echoSigner.signFn, none⟩ : mockSigner Unit).Sign (some [1]) ()).1.1
      ((⟨echoSigner.signFn, none⟩ : mockSigner Unit).Sign (some [1]) ()).1.2.1
      ((⟨echoSigner.signFn, none⟩ : mockSigner Unit).Sign (some [1]) ()).2).1 = none :=
  (sign_verify_roundtrip_of_unset (⟨echoSigner.signFn, none⟩ : mockSigner Unit) (some [1]) ()).1
    rfl

/-- C4 as stated fails: on the tracker `&mockEventTracker{}`, `Start(1)` succeeds and, with no
`Stop()` in between, `Start(2)` succeeds too instead of failing with `AlreadyRunning`. -/
theorem second_start_succeeds :
    (zeroTracker.Start 1 ()).1 = none ∧
      (zeroTracker.Start 2 (zeroTracker.Start 1 ()).2).1 = none ∧
      (zeroTracker.Start 2 (zeroTracker.Start 1 ()).2).1 ≠ some Err.AlreadyRunning := by
  decide

/-- C4, amended: on `mockEventTracker`, a `Start(h2)` that follows `Start(h1)` with no `Stop()`
in between returns `nil` when `startFn` is unset, and otherwise exactly what `startFn(h2)`
returns in the world the first call left; it fails `AlreadyRunning` whenever the injected
`startFn` does so after a successful start. -/
theorem second_start_delegates (m : mockEventTracker σ) (h1 h2 : Nat) (s : σ) :
    (m.startFn = none →
      (m.Start h1 s).1 = none ∧ (m.Start h2 (m.Start h1 s).2).1 = none) ∧
    (∀ f, m.startFn = some f → m.Start h2 (m.Start h1 s).2 = f h2 (f h1 s).2) ∧
    (∀ f, m.startFn = some f →
      (∀ a b s0, (f a s0).1 = none → (f b (f a s0).2).1 = some Err.AlreadyRunning) →
      (m.Start h1 s).1 = none → (m.Start h2 (m.Start h1 s).2).1 = some Err.AlreadyRunning) := by
  refine ⟨?_, ?_, ?_⟩
  · intro h; simp [mockEventTracker.Start, h]
  · intro f h; simp [mockEventTracker.Start, h]
  · intro f h hrun hok
    simp only [mockEventTracker.Start, h] at hok ⊢
    exact hrun h1 h2 s hok

/-- C4 amended, at the double that keeps a running flag: the second `Start` fails with
`AlreadyRunning`. -/
theorem second_start_delegates_witness :
    (lifecycleTracker.Start 2 (lifecycleTracker.Start 1 false).2).1 = some Err.AlreadyRunning :=
  (second_start_delegates lifecycleTracker 1 2 false).2.2 _ rfl
    (fun _ _ _ _ => rfl) rfl

/-- C5 as stated fails: on a tracker double whose `stopFn` reports a teardown failure, `Stop()`
on the never started tracker returns that error. -/
theorem stop_can_fail :
    (failingStopTracker.Stop ()).1 = some (Err.other (ascii "teardown")) ∧
      (failingStopTracker.Stop ()).1 ≠ none := by
  decide

/-- C5, amended: on a `mockEventTracker` whose `stopFn` is unset, `Stop()` returns no error and
leaves the world unchanged, so two consecutive `Stop()` calls both succeed; when `stopFn` is set
each `Stop()` returns what `stopFn()` returns. -/
theorem stop_idempotent_of_unset (m : mockEventTracker σ) (s : σ) :
    (m.stopFn = none →
      m.Stop s = (none, s) ∧ m.Stop (m.Stop s).2 = (none, s)) ∧
    (∀ f, m.stopFn = some f → m.Stop s = f s ∧ m.Stop (m.Stop s).2 = f (f s).2) := by
  refine ⟨?_, ?_⟩
  · intro h; simp [mockEventTracker.Stop, h]
  · intro f h; simp [mockEventTracker.Stop, h]

/-- C5 amended, at the tracker `&mockEventTracker{}`: two `Stop()` calls in a row return
`nil`. -/
theorem stop_idempotent_of_unset_witness :
    zeroTracker.Stop () = (none, ()) ∧ zeroTracker.Stop (zeroTracker.Stop ()).2 = (none, ()) :=
  (stop_idempotent_of_unset zeroTracker ()).1 rfl

end Samuel

/-! # Theorems: `command/genesis/polybft_params.go` -/

namespace Slice

variable {α : Type}

theorem toList_append (s : Slice α) (x : α) : toList (append s x) = toList s ++ [x] := rfl

theorem toList_some (l : List α) : toList (some l) = l := rfl

theorem toList_eq_nil_of_len_eq_zero (s : Slice α) (h : len s = 0) : toList s = [] :=
  List.length_eq_zero.mp h

end Slice

namespace Genesis

variable {T : ExtTypes}

/-! ## Lists written index by index -/

theorem set_length_append {α : Type} (pre : List α) (a x : α) (tl : List α) :
    (pre ++ a :: tl).set pre.length x = pre ++ x :: tl := by
  induction pre with
  | nil => rfl
  | cons b pre ih => simp [List.set, ih]

/-! ## `strings.Split` -/

theorem stringsSplit_ne_nil (sep : Byte) (s : GoString) : stringsSplit sep s ≠ [] := by
  induction s with
  | nil => simp [stringsSplit]
  | cons c cs ih =>
    unfold stringsSplit
    split
    · simp
    · split <;> simp

theorem stringsSplit_append_sep (sep : Byte) (a b : GoString) (h : sep ∉ a) :
    stringsSplit sep (a ++ sep :: b) = a :: stringsSplit sep b := by
  induction a with
  | nil => simp [stringsSplit]
  | cons c cs ih =>
    have hc : c ≠ sep := fun hcs => h (by simp [hcs])
    have hcs : sep ∉ cs := fun hm => h (List.mem_cons_of_mem _ hm)
    simp only [List.cons_append]
    rw [stringsSplit, if_neg hc, ih hcs]

/-! ## `getGenesisValidators` -/

/-- The guard of line 118 lets an entry through exactly when the entry stands for a
validator, and then the struct of lines 122-125 is that validator. -/
theorem flagLoop_step (X : Ext T) (validator : GoString) (rest : List GoString)
    (result : Slice (Validator T)) :
    getGenesisValidators.flagLoop X (validator :: rest) result =
      getGenesisValidators.flagLoop X rest
        (match validatorOfFlagEntry X validator with
         | none => result
         | some v => Slice.append result v) := by
  rw [getGenesisValidators.flagLoop]
  simp only [validatorOfFlagEntry]
  rcases hs : stringsSplit colon validator with _ | ⟨a, _ | ⟨b, _ | ⟨c, tl⟩⟩⟩
  · simp
  · simp
  · by_cases h32 : a.length = 32
    · by_cases h2 : 2 ≤ b.length
      · simp [h32, h2]
      · have h2lt : b.length < 2 := Nat.lt_of_not_le h2
        simp [h32, h2, h2lt]
    · simp [h32]
  · simp

theorem flagLoop_toList (X : Ext T) (l : List GoString) (result : Slice (Validator T)) :
    Slice.toList (getGenesisValidators.flagLoop X l result) =
      Slice.toList result ++ l.filterMap (validatorOfFlagEntry X) := by
  induction l generalizing result with
  | nil => simp [getGenesisValidators.flagLoop]
  | cons e rest ih =>
    rw [flagLoop_step, ih, List.filterMap_cons]
    cases validatorOfFlagEntry X e with
    | none => rfl
    | some v => simp [Slice.toList_append]

theorem diskLoop_toList (X : Ext T) (l : List (GenesisTarget T)) (result : Slice (Validator T)) :
    Slice.toList (getGenesisValidators.diskLoop X l result) =
      Slice.toList result ++ l.map (fun validator =>
        ({ Address := X.EcdsaAddress validator.Account.Ecdsa,
           BlsKey := hexEncodeToString
             (Slice.toList (X.Marshal (X.PublicKey validator.Account.Bls))) } : Validator T)) := by
  induction l generalizing result with
  | nil => simp [getGenesisValidators.diskLoop]
  | cons v rest ih =>
    rw [getGenesisValidators.diskLoop, ih]
    simp [Slice.toList_append]

theorem getGenesisValidators_of_disk (X : Ext T) (p : genesisParams)
    (validators : Slice (GenesisTarget T)) (hv : Slice.len p.validators = 0) :
    Slice.toList (getGenesisValidators X p validators) =
      (Slice.toList validators).map (fun validator =>
        ({ Address := X.EcdsaAddress validator.Account.Ecdsa,
           BlsKey := hexEncodeToString
             (Slice.toList (X.Marshal (X.PublicKey validator.Account.Bls))) } : Validator T)) := by
  unfold getGenesisValidators
  rw [if_neg (by omega), diskLoop_toList]
  rfl

theorem getGenesisValidators_of_flags (X : Ext T) (p : genesisParams)
    (validators : Slice (GenesisTarget T)) (hv : 0 < Slice.len p.validators) :
    Slice.toList (getGenesisValidators X p validators) =
      (Slice.toList p.validators).filterMap (validatorOfFlagEntry X) := by
  unfold getGenesisValidators
  rw [if_pos hv, flagLoop_toList]
  rfl

/-! ## `generateExtraDataPolyBft` -/

theorem extraLoop_eq (X : Ext T) (l : List (GenesisTarget T))
    (pre post : List (Option (ValidatorAccount T))) :
    generateExtraDataPolyBft.loop X pre.length l (pre ++ List.replicate l.length none ++ post) =
      pre ++ l.map (fun validator =>
        some ({ Address := X.EcdsaAddress validator.Account.Ecdsa,
                BlsKey := X.PublicKey validator.Account.Bls } : ValidatorAccount T)) ++ post := by
  induction l generalizing pre with
  | nil => simp [generateExtraDataPolyBft.loop]
  | cons v rest ih =>
    rw [generateExtraDataPolyBft.loop]
    have hset : ∀ x : Option (ValidatorAccount T),
        (pre ++ List.replicate (v :: rest).length none ++ post).set pre.length x =
          (pre ++ [x]) ++ List.replicate rest.length none ++ post := by
      intro x
      simp only [List.length_cons, List.replicate_succ, List.append_assoc, List.cons_append,
        List.nil_append]
      exact set_length_append pre none x _
    rw [hset]
    have h := ih (pre ++ [some ⟨X.EcdsaAddress v.Account.Ecdsa, X.PublicKey v.Account.Bls⟩])
    rw [List.length_append, List.length_singleton] at h
    rw [h]
    simp

theorem extraDelta_added (X : Ext T) (validators : Slice (GenesisTarget T)) :
    (generateExtraDataPolyBft.delta X validators).Added =
      some ((Slice.toList validators).map (fun validator =>
        some ({ Address := X.EcdsaAddress validator.Account.Ecdsa,
                BlsKey := X.PublicKey validator.Account.Bls } : ValidatorAccount T))) := by
  have h := extraLoop_eq X (Slice.toList validators) [] []
  simp only [List.length_nil, List.nil_append, List.append_nil] at h
  simp only [generateExtraDataPolyBft.delta, Slice.len, h]

/-! ## The loops of `generatePolyBFTConfig` -/

theorem bootnodeLoop_toList (l : List (GenesisTarget T)) (i : Nat) (bootnodes : Slice GoString) :
    Slice.toList (generatePolyBFTConfig.bootnodeLoop i l bootnodes) =
      Slice.toList bootnodes ++ (l.enumFrom i).map (fun e =>
        sprintfBootnode (bootnodePortStart + e.1) e.2.NodeID) := by
  induction l generalizing i bootnodes with
  | nil => simp [generatePolyBFTConfig.bootnodeLoop]
  | cons v rest ih =>
    rw [generatePolyBFTConfig.bootnodeLoop]
    simp only [ih, Slice.toList_append, List.enumFrom_cons, List.map_cons, List.append_assoc,
      List.singleton_append]

theorem sprintfBootnode_eq (i : Nat) (nodeID : GoString) :
    sprintfBootnode (bootnodePortStart + i) nodeID = defaultBootnode i nodeID := by
  have h : ascii "/ip4/" ++ ascii "127.0.0.1" ++ ascii "/tcp/" = ascii "/ip4/127.0.0.1/tcp/" := by
    decide
  simp only [sprintfBootnode, defaultBootnode, bootnodePortStart, h]

theorem premineLoop_eq (X : Ext T) (premineValidators : GoString) (l : List (GenesisTarget T))
    (pre post : List GoString) :
    generatePolyBFTConfig.premineLoop X premineValidators pre.length l
        (pre ++ List.replicate l.length [] ++ post) =
      pre ++ l.map (fun vi =>
        sprintfPremine (X.AddressString (X.EcdsaAddress vi.Account.Ecdsa)) premineValidators)
        ++ post := by
  induction l generalizing pre with
  | nil => simp [generatePolyBFTConfig.premineLoop]
  | cons v rest ih =>
    rw [generatePolyBFTConfig.premineLoop]
    have hset : ∀ x : GoString,
        (pre ++ List.replicate (v :: rest).length [] ++ post).set pre.length x =
          (pre ++ [x]) ++ List.replicate rest.length [] ++ post := by
      intro x
      simp only [List.length_cons, List.replicate_succ, List.append_assoc, List.cons_append,
        List.nil_append]
      exact set_length_append pre [] x _
    rw [hset]
    have h := ih (pre ++ [sprintfPremine (X.AddressString (X.EcdsaAddress v.Account.Ecdsa))
      premineValidators])
    rw [List.length_append, List.length_singleton] at h
    rw [h]
    simp

/-- What a successful `generatePolyBFTConfig` went through: the three fallible calls succeeded
and the chain config is the one assembled from their results. -/
theorem generatePolyBFTConfig_ok (X : Ext T) (p : genesisParams) (cfg : Chain T)
    (h : generatePolyBFTConfig X p = .ok cfg) :
    ∃ validatorsInfo smartContracts alloc,
      X.ReadValidatorsByRegexp (X.pathDir p.genesisPath) p.polyBftValidatorPrefixPath
        = .ok validatorsInfo ∧
      deployContracts X = .ok smartContracts ∧
      X.fillPremineMap X.emptyAlloc (generatePolyBFTConfig.premine X p validatorsInfo)
        = .ok alloc ∧
      cfg.Bootnodes = generatePolyBFTConfig.bootnodes p validatorsInfo ∧
      cfg.Genesis.Alloc = alloc ∧
      cfg.Genesis.ExtraData = generateExtraDataPolyBft X validatorsInfo ∧
      ∃ polyBftConfig : PolyBFTConfig T,
        cfg.Params.Engine = [(X.PolyBFTConsensus, polyBftConfig)] ∧
        polyBftConfig.InitialValidatorSet = getGenesisValidators X p validatorsInfo := by
  unfold generatePolyBFTConfig at h
  split at h
  · cases h
  · rename_i validatorsInfo hr
    split at h
    · cases h
    · rename_i smartContracts hd
      dsimp only at h
      split at h
      · cases h
      · rename_i alloc hf
        injection h with h
        subst h
        exact ⟨validatorsInfo, smartContracts, alloc, hr, hd, hf, rfl, rfl, rfl, _, rfl, rfl⟩

/-! ## Hex addresses -/

theorem colon_not_hexDigit (c : Byte) (h : isHexDigit c) : c ≠ colon := by
  intro hc
  subst hc
  revert h
  unfold isHexDigit
  decide

theorem isHexAddress_facts (a : GoString) (h : isHexAddress a) :
    colon ∉ a ∧ (a.length = 40 ∨ a.length = 42) := by
  obtain ⟨digits, hlen, hdig, ha⟩ := h
  have hnot : colon ∉ digits := fun hm => colon_not_hexDigit colon (hdig colon hm) rfl
  have h0x : ascii "0x" = [48, 120] := by decide
  rcases ha with ha | ha
  · subst ha
    exact ⟨hnot, Or.inl hlen⟩
  · subst ha
    refine ⟨?_, Or.inr ?_⟩
    · rw [h0x]
      intro hm
      rcases List.mem_append.mp hm with hm | hm
      · revert hm
        decide
      · exact hnot hm
    · rw [h0x]
      simp [hlen]

theorem validatorOfFlagEntry_hex (X : Ext T) (address blsKey : GoString)
    (h : isHexAddress address) :
    validatorOfFlagEntry X (address ++ ascii ":" ++ blsKey) = none := by
  obtain ⟨hnot, hlen⟩ := isHexAddress_facts address h
  have hc : ascii ":" = [colon] := by decide
  have h32 : address.length ≠ 32 := by omega
  rw [hc, List.append_assoc, List.singleton_append]
  unfold validatorOfFlagEntry
  rw [stringsSplit_append_sep colon address blsKey hnot]
  rcases stringsSplit colon blsKey with _ | ⟨b, _ | ⟨c, tl⟩⟩
  · rfl
  · simp [h32]
  · rfl

/-! ## The claims about `polybft_params.go` -/

/-- C6 as stated fails: in the run `demoFlagParams` (two validators on disk, one well formed
`--polybft-validators` entry) `generatePolyBFTConfig` succeeds, `InitialValidatorSet` has one
validator and the `ValidatorSetDelta.Added` marshalled into `Genesis.ExtraData` has two. -/
theorem initialValidatorSet_differs_from_extraData :
    ∃ cfg polyBftConfig,
      generatePolyBFTConfig (demoExt demoDisk) demoFlagParams = .ok cfg ∧
      cfg.Params.Engine = [((demoExt demoDisk).PolyBFTConsensus, polyBftConfig)] ∧
      cfg.Genesis.ExtraData = generateExtraDataPolyBft (demoExt demoDisk) demoDisk ∧
      Slice.len polyBftConfig.InitialValidatorSet = 1 ∧
      Slice.len (generateExtraDataPolyBft.delta (demoExt demoDisk) demoDisk).Added = 2 ∧
      Slice.len polyBftConfig.InitialValidatorSet ≠
        Slice.len (generateExtraDataPolyBft.delta (demoExt demoDisk) demoDisk).Added :=
  ⟨_, _, rfl, rfl, rfl, by decide, by decide, by decide⟩

/-- C6, amended: when `p.validators` is empty and `generatePolyBFTConfig` succeeds, the
consensus config's `InitialValidatorSet` and the `ValidatorSetDelta.Added` marshalled into
`Genesis.ExtraData` have the same length and, at every index, the same address, and the
`BlsKey` of the former is the hex encoding of the marshalled key of the latter. -/
theorem initialValidatorSet_matches_extraData (X : Ext T) (p : genesisParams) (cfg : Chain T)
    (hv : Slice.len p.validators = 0) (h : generatePolyBFTConfig X p = .ok cfg) :
    ∃ validatorsInfo polyBftConfig,
      X.ReadValidatorsByRegexp (X.pathDir p.genesisPath) p.polyBftValidatorPrefixPath
        = .ok validatorsInfo ∧
      cfg.Params.Engine = [(X.PolyBFTConsensus, polyBftConfig)] ∧
      cfg.Genesis.ExtraData = generateExtraDataPolyBft X validatorsInfo ∧
      Slice.len polyBftConfig.InitialValidatorSet =
        Slice.len (generateExtraDataPolyBft.delta X validatorsInfo).Added ∧
      ∀ i, i < Slice.len (generateExtraDataPolyBft.delta X validatorsInfo).Added →
        ∃ validator account,
          (Slice.toList polyBftConfig.InitialValidatorSet)[i]? = some validator ∧
          (Slice.toList (generateExtraDataPolyBft.delta X validatorsInfo).Added)[i]?
            = some (some account) ∧
          validator.Address = account.Address ∧
          validator.BlsKey = hexEncodeToString (Slice.toList (X.Marshal account.BlsKey)) := by
  obtain ⟨validatorsInfo, _, _, hr, _, _, _, _, hextra, polyBftConfig, hengine, hivs⟩ :=
    generatePolyBFTConfig_ok X p cfg h
  have hdisk := getGenesisValidators_of_disk X p validatorsInfo hv
  refine ⟨validatorsInfo, polyBftConfig, hr, hengine, hextra, ?_, ?_⟩
  · rw [hivs, extraDelta_added]
    simp only [Slice.len, hdisk, Slice.toList_some, List.length_map]
  · intro i hi
    rw [extraDelta_added] at hi ⊢
    have hi2 : i < (Slice.toList validatorsInfo).length := by
      simpa only [Slice.len, Slice.toList_some, List.length_map] using hi
    refine ⟨⟨X.EcdsaAddress ((Slice.toList validatorsInfo)[i]).Account.Ecdsa,
        hexEncodeToString (Slice.toList (X.Marshal
          (X.PublicKey ((Slice.toList validatorsInfo)[i]).Account.Bls)))⟩,
      ⟨X.EcdsaAddress ((Slice.toList validatorsInfo)[i]).Account.Ecdsa,
        X.PublicKey ((Slice.toList validatorsInfo)[i]).Account.Bls⟩, ?_, ?_, rfl, rfl⟩
    · rw [hivs, hdisk]
      simp only [List.getElem?_map, List.getElem?_eq_getElem hi2, Option.map_some']
    · simp only [Slice.toList_some, List.getElem?_map, List.getElem?_eq_getElem hi2,
        Option.map_some']

/-- C6 amended, at the run `demoParams` (no flag set, two validators on disk). -/
theorem initialValidatorSet_matches_extraData_witness :
    Slice.len demoParams.validators = 0 ∧
    ∃ cfg, generatePolyBFTConfig (demoExt demoDisk) demoParams = .ok cfg ∧
      ∃ validatorsInfo polyBftConfig,
        (demoExt demoDisk).ReadValidatorsByRegexp ((demoExt demoDisk).pathDir
          demoParams.genesisPath) demoParams.polyBftValidatorPrefixPath = .ok validatorsInfo ∧
        cfg.Params.Engine = [((demoExt demoDisk).PolyBFTConsensus, polyBftConfig)] ∧
        cfg.Genesis.ExtraData = generateExtraDataPolyBft (demoExt demoDisk) validatorsInfo ∧
        Slice.len polyBftConfig.InitialValidatorSet =
          Slice.len (generateExtraDataPolyBft.delta (demoExt demoDisk) validatorsInfo).Added ∧
        ∀ i, i < Slice.len (generateExtraDataPolyBft.delta (demoExt demoDisk)
            validatorsInfo).Added →
          ∃ validator account,
            (Slice.toList polyBftConfig.InitialValidatorSet)[i]? = some validator ∧
            (Slice.toList (generateExtraDataPolyBft.delta (demoExt demoDisk)
              validatorsInfo).Added)[i]? = some (some account) ∧
            validator.Address = account.Address ∧
            validator.BlsKey =
              hexEncodeToString (Slice.toList ((demoExt demoDisk).Marshal account.BlsKey)) :=
  ⟨by decide, _, rfl,
    initialValidatorSet_matches_extraData (demoExt demoDisk) demoParams _ (by decide) rfl⟩

/-- C7: when `generatePolyBFTConfig` succeeds, the chain config's `Bootnodes` is `p.bootnodes`
unchanged if `p.bootnodes` is non-empty; if it is empty, `Bootnodes` has one entry per
validator read from disk, in their order, the `i`-th (from 0) being
`/ip4/127.0.0.1/tcp/<30301+i>/p2p/<NodeID of validator i>`. -/
theorem bootnodes_defaulting (X : Ext T) (p : genesisParams) (cfg : Chain T)
    (h : generatePolyBFTConfig X p = .ok cfg) :
    (Slice.len p.bootnodes ≠ 0 → cfg.Bootnodes = p.bootnodes) ∧
    (Slice.len p.bootnodes = 0 →
      ∃ validatorsInfo,
        X.ReadValidatorsByRegexp (X.pathDir p.genesisPath) p.polyBftValidatorPrefixPath
          = .ok validatorsInfo ∧
        Slice.len cfg.Bootnodes = Slice.len validatorsInfo ∧
        ∀ i, (Slice.toList cfg.Bootnodes)[i]? =
          ((Slice.toList validatorsInfo)[i]?).map
            (fun validator => defaultBootnode i validator.NodeID)) := by
  obtain ⟨validatorsInfo, _, _, hr, _, _, hboot, _, _, _, _, _⟩ :=
    generatePolyBFTConfig_ok X p cfg h
  refine ⟨?_, ?_⟩
  · intro hne
    rw [hboot, generatePolyBFTConfig.bootnodes, if_neg hne]
  · intro h0
    have hlist : Slice.toList cfg.Bootnodes =
        ((Slice.toList validatorsInfo).enumFrom 0).map (fun e =>
          sprintfBootnode (bootnodePortStart + e.1) e.2.NodeID) := by
      rw [hboot, generatePolyBFTConfig.bootnodes, if_pos h0, bootnodeLoop_toList,
        Slice.toList_eq_nil_of_len_eq_zero _ h0, List.nil_append]
    refine ⟨validatorsInfo, hr, ?_, ?_⟩
    · simp only [Slice.len, hlist, List.length_map, List.enumFrom_length]
    · intro i
      rw [hlist, List.getElem?_map, List.getElem?_enumFrom, Option.map_map]
      cases (Slice.toList validatorsInfo)[i]? with
      | none => rfl
      | some v =>
        simp only [Option.map_some', Function.comp_apply, Nat.zero_add, sprintfBootnode_eq]

/-- C7 at the run `demoParams` (no bootnode given, validators `a` and `b` on disk). -/
theorem bootnodes_defaulting_witness :
    ∃ cfg, generatePolyBFTConfig (demoExt demoDisk) demoParams = .ok cfg ∧
      (Slice.len demoParams.bootnodes ≠ 0 → cfg.Bootnodes = demoParams.bootnodes) ∧
      (Slice.len demoParams.bootnodes = 0 →
        ∃ validatorsInfo,
          (demoExt demoDisk).ReadValidatorsByRegexp ((demoExt demoDisk).pathDir
            demoParams.genesisPath) demoParams.polyBftValidatorPrefixPath = .ok validatorsInfo ∧
          Slice.len cfg.Bootnodes = Slice.len validatorsInfo ∧
          ∀ i, (Slice.toList cfg.Bootnodes)[i]? =
            ((Slice.toList validatorsInfo)[i]?).map
              (fun validator => defaultBootnode i validator.NodeID)) :=
  ⟨_, rfl, bootnodes_defaulting (demoExt demoDisk) demoParams _ rfl⟩

/-- C8: when `p.validators` is non-empty, `getGenesisValidators` ignores the validators read
from disk and returns, in input order, one `Validator` per entry of `p.validators` that splits
on `":"` into exactly two parts, the first of length exactly 32 and the second of length at
least 2, with `Address = StringToAddress(first part)` and `BlsKey = second part`; every other
entry is dropped.  The result is never longer than `p.validators`, and an entry whose address
part is a 40-character hex address, or its 42-character `0x` form, gives no validator. -/
theorem getGenesisValidators_flag_entries (X : Ext T) (p : genesisParams)
    (validators : Slice (GenesisTarget T)) (h : 0 < Slice.len p.validators) :
    Slice.toList (getGenesisValidators X p validators) =
      (Slice.toList p.validators).filterMap (validatorOfFlagEntry X) ∧
    (∀ other, getGenesisValidators X p other = getGenesisValidators X p validators) ∧
    Slice.len (getGenesisValidators X p validators) ≤ Slice.len p.validators ∧
    (∀ address blsKey, isHexAddress address →
      validatorOfFlagEntry X (address ++ ascii ":" ++ blsKey) = none) ∧
    ((∀ entry ∈ Slice.toList p.validators, ∃ address blsKey,
        isHexAddress address ∧ entry = address ++ ascii ":" ++ blsKey) →
      Slice.toList (getGenesisValidators X p validators) = []) := by
  have hflags := getGenesisValidators_of_flags X p validators h
  refine ⟨hflags, ?_, ?_, ?_, ?_⟩
  · intro other
    unfold getGenesisValidators
    rw [if_pos h, if_pos h]
  · simp only [Slice.len, hflags]
    exact List.length_filterMap_le _ _
  · intro address blsKey hhex
    exact validatorOfFlagEntry_hex X address blsKey hhex
  · intro hall
    rw [hflags, List.filterMap_eq_nil_iff]
    intro entry hmem
    obtain ⟨address, blsKey, hhex, rfl⟩ := hall entry hmem
    exact validatorOfFlagEntry_hex X address blsKey hhex

/-- C8 at the run `demoMixedFlagParams`: of the three entries only the well formed one gives
a validator. -/
theorem getGenesisValidators_flag_entries_witness :
    0 < Slice.len demoMixedFlagParams.validators ∧
    (Slice.toList (getGenesisValidators (demoExt demoDisk) demoMixedFlagParams demoDisk)).length
      = 1 ∧
    Slice.toList (getGenesisValidators (demoExt demoDisk) demoMixedFlagParams demoDisk) =
      (Slice.toList demoMixedFlagParams.validators).filterMap
        (validatorOfFlagEntry (demoExt demoDisk)) :=
  ⟨by decide, by decide,
    (getGenesisValidators_flag_entries (demoExt demoDisk) demoMixedFlagParams demoDisk
      (by decide)).1⟩

/-- C9: in `generatePolyBFTConfig` the list handed to `fillPremineMap` is `p.premine` itself
when `p.premine` is non-empty; otherwise, when `p.premineValidators` is a non-empty string, it
has one entry `<validator ECDSA address>:<p.premineValidators>` per validator read from disk, in
their order; otherwise it is `nil`.  An error of `fillPremineMap` on that list is the result of
`generatePolyBFTConfig`, with no chain config; on success the filled map is the config's
`Alloc`. -/
theorem premine_precedence (X : Ext T) (p : genesisParams)
    (validatorsInfo : Slice (GenesisTarget T)) (smartContracts : Slice (SmartContract T))
    (hr : X.ReadValidatorsByRegexp (X.pathDir p.genesisPath) p.polyBftValidatorPrefixPath
      = .ok validatorsInfo)
    (hd : deployContracts X = .ok smartContracts) :
    (0 < Slice.len p.premine → generatePolyBFTConfig.premine X p validatorsInfo = p.premine) ∧
    (Slice.len p.premine = 0 → p.premineValidators ≠ [] →
      generatePolyBFTConfig.premine X p validatorsInfo =
        some ((Slice.toList validatorsInfo).map (fun vi =>
          X.AddressString (X.EcdsaAddress vi.Account.Ecdsa) ++ ascii ":"
            ++ p.premineValidators))) ∧
    (Slice.len p.premine = 0 → p.premineValidators = [] →
      generatePolyBFTConfig.premine X p validatorsInfo = none) ∧
    (∀ err, X.fillPremineMap X.emptyAlloc (generatePolyBFTConfig.premine X p validatorsInfo)
        = .error err → generatePolyBFTConfig X p = .error err) ∧
    (∀ alloc, X.fillPremineMap X.emptyAlloc (generatePolyBFTConfig.premine X p validatorsInfo)
        = .ok alloc → ∃ cfg, generatePolyBFTConfig X p = .ok cfg ∧ cfg.Genesis.Alloc = alloc) := by
  refine ⟨?_, ?_, ?_, ?_, ?_⟩
  · intro hpos
    rw [generatePolyBFTConfig.premine, if_pos hpos]
  · intro h0 hne
    have hloop := premineLoop_eq X p.premineValidators (Slice.toList validatorsInfo) [] []
    simp only [List.length_nil, List.nil_append, List.append_nil] at hloop
    rw [generatePolyBFTConfig.premine, if_neg (by omega), if_pos hne]
    simp only [Slice.len, hloop, sprintfPremine]
  · intro h0 he
    rw [generatePolyBFTConfig.premine, if_neg (by omega), if_neg (by simp [he])]
  · intro err hf
    simp only [generatePolyBFTConfig, hr, hd, hf]
  · intro alloc hf
    simp only [generatePolyBFTConfig, hr, hd, hf]
    exact ⟨_, rfl, rfl⟩

/-- C9 at the run `demoPremineParams` (`--premine-validators 1000`, ECDSA addresses `20` and
`21` on disk): the entries `20:1000` and `21:1000` reach `fillPremineMap`. -/
theorem premine_precedence_witness :
    generatePolyBFTConfig.premine (demoExt demoDisk) demoPremineParams demoDisk =
      some [ascii "20:1000", ascii "21:1000"] ∧
    generatePolyBFTConfig.premine (demoExt demoDisk) demoPremineParams demoDisk =
      some ((Slice.toList demoDisk).map (fun vi =>
        (demoExt demoDisk).AddressString ((demoExt demoDisk).EcdsaAddress vi.Account.Ecdsa)
          ++ ascii ":" ++ demoPremineParams.premineValidators)) :=
  ⟨by decide,
    (premine_precedence (demoExt demoDisk) demoPremineParams demoDisk (some
      [⟨(257 : Nat), some [], ascii "child/Validator"⟩,
       ⟨(4097 : Nat), some [], ascii "child/StateReceiver"⟩,
       ⟨(4112 : Nat), some [], ascii "child/NativeTokenContract"⟩]) rfl rfl).2.1
      (by decide) (by decide)⟩

end Genesis
